import Mathlib

/-!
Verification of the boltz admin-dashboard authorization model.

The embedded code is the database schema, row-level-security (RLS)
policies and trigger functions of
`supabase/migrations/20251024060052_create_admin_user_management_system.sql`,
plus the replace-all-grants client flow `handleSave` of
`src/components/admin/MenuAccessModal.tsx`.

Modelling conventions:
- uuid values are `Nat`, timestamptz values are `Nat` (an abstract
  instant), jsonb details are `Option String`.
- Each table is a `List` of row structures inside `DB`.
- Postgres RLS policies are permissive: for a given command the USING
  clauses of all applicable policies are OR-ed to decide row
  visibility, and the WITH CHECK clauses are OR-ed to test new rows.
- Subqueries inside a policy read the table state as it was when the
  statement started (a statement does not see its own in-flight
  changes).
- A failed WITH CHECK or constraint aborts the statement: operations
  that can fail return `Except String DB`, and the stored state after
  a failed attempt is the original `DB`.
- The external `auth.users` table is not materialized; an identity is
  its bare `Nat` id, and deleting an identity is the operation
  `deleteAuthUser` applying the schema's referential actions.
  Foreign-key presence checks on insert are outside the model; the
  declared referential actions (CASCADE / SET NULL / NO ACTION) are
  modelled where a claim depends on them.
-/

namespace Boltz

/-- Row of the `profiles` table. -/
structure Profile where
  id : Nat
  email : String
  full_name : String
  role : String
  is_active : Bool
  avatar_url : Option String
  created_at : Nat
  updated_at : Nat
deriving DecidableEq, Repr

/-- Row of the `menus` table. -/
structure MenuEntry where
  id : Nat
  name : String
  description : Option String
  icon : String
  route : String
  order_index : Int
  is_active : Bool
  created_by : Option Nat
  created_at : Nat
  updated_at : Nat
deriving DecidableEq, Repr

/-- Row of the `user_menus` junction table. -/
structure UserMenu where
  id : Nat
  user_id : Nat
  menu_id : Nat
  granted_by : Option Nat
  granted_at : Nat
deriving DecidableEq, Repr

/-- Row of the `activity_logs` table. `user_id` is nullable
(`ON DELETE SET NULL`). -/
structure ActivityLog where
  id : Nat
  user_id : Option Nat
  action : String
  entity_type : String
  entity_id : Option Nat
  details : Option String
  ip_address : Option String
  created_at : Nat
deriving DecidableEq, Repr

/-- The four tables of the schema. -/
structure DB where
  profiles : List Profile
  menus : List MenuEntry
  user_menus : List UserMenu
  activity_logs : List ActivityLog
deriving DecidableEq, Repr

/-- The self-referential admin test used by every admin policy:
`EXISTS (SELECT 1 FROM profiles WHERE profiles.id = auth.uid()
AND profiles.role = admin AND profiles.is_active = true)`. -/
def isActiveAdmin (ps : List Profile) (uid : Nat) : Bool :=
  ps.any (fun p => p.id == uid && p.role == "admin" && p.is_active)

/-- `CHECK (role IN (admin, user, employee))` on `profiles.role`. -/
def validRole (r : String) : Bool :=
  r == "admin" || r == "user" || r == "employee"

/-- SELECT on `profiles`: policies "Users can view own profile"
(`auth.uid() = id`) OR "Admins can view all profiles". -/
def profileSelectPolicy (db : DB) (uid : Nat) (p : Profile) : Bool :=
  uid == p.id || isActiveAdmin db.profiles uid

/-- SELECT on `menus`: policies "Admins can view all menus" OR
"Users can view assigned active menus" (`is_active = true AND EXISTS
(SELECT 1 FROM user_menus WHERE user_id = auth.uid() AND menu_id =
menus.id)`). -/
def menuSelectPolicy (db : DB) (uid : Nat) (m : MenuEntry) : Bool :=
  isActiveAdmin db.profiles uid ||
    (m.is_active &&
      db.user_menus.any (fun g => g.user_id == uid && g.menu_id == m.id))

/-- `SELECT * FROM menus` as caller `uid`: RLS filters the table by
the OR of the SELECT policies. -/
def selectMenus (db : DB) (uid : Nat) : List MenuEntry :=
  db.menus.filter (menuSelectPolicy db uid)

/-- `SELECT * FROM profiles WHERE id = pid` as caller `uid`. -/
def selectProfilesById (db : DB) (uid : Nat) (pid : Nat) : List Profile :=
  db.profiles.filter (fun p => p.id == pid && profileSelectPolicy db uid p)

/-- Trigger function `update_updated_at_column` as fired BEFORE UPDATE
on `profiles`: `NEW.updated_at = now()`. -/
def update_updated_at_column (now : Nat) (p : Profile) : Profile :=
  { p with updated_at := now }

/-- The same trigger function as fired BEFORE UPDATE on `menus`. -/
def update_updated_at_column_menu (now : Nat) (m : MenuEntry) : MenuEntry :=
  { m with updated_at := now }

/-- UPDATE on `profiles`, USING side: policies "Users can update own
profile" (`auth.uid() = id`) OR "Admins can update any profile". -/
def profileUpdateUsing (db : DB) (uid : Nat) (p : Profile) : Bool :=
  uid == p.id || isActiveAdmin db.profiles uid

/-- UPDATE on `profiles`, WITH CHECK side, applied to the new row:
"Users can update own profile" requires `auth.uid() = id AND role =
(SELECT role FROM profiles WHERE id = auth.uid()) AND is_active =
(SELECT is_active FROM profiles WHERE id = auth.uid())`; OR-ed with
"Admins can update any profile".  The scalar subqueries read the
pre-statement table state. -/
def profileUpdateCheck (db : DB) (uid : Nat) (np : Profile) : Bool :=
  (uid == np.id &&
    (match db.profiles.find? (fun p => p.id == uid) with
     | some cur => np.role == cur.role && np.is_active == cur.is_active
     | none => false)) ||
  isActiveAdmin db.profiles uid

/-- The new row an UPDATE produces for old row `p`: the caller-supplied
column values `f p`, then the BEFORE UPDATE trigger overwrites
`updated_at`. -/
def profileNewRow (now : Nat) (f : Profile → Profile) (p : Profile) : Profile :=
  update_updated_at_column now (f p)

/-- `UPDATE profiles SET ... WHERE id = targetId` as caller `uid`.
Rows matching the WHERE clause and some USING clause are rewritten;
if any rewritten row fails every WITH CHECK clause the whole
statement errors and nothing is stored. -/
def runProfilesUpdate (now : Nat) (db : DB) (uid : Nat) (targetId : Nat)
    (f : Profile → Profile) : Except String DB :=
  if db.profiles.all (fun p =>
      !(p.id == targetId && profileUpdateUsing db uid p) ||
        profileUpdateCheck db uid (profileNewRow now f p)) then
    .ok { db with profiles := db.profiles.map (fun p =>
      if p.id == targetId && profileUpdateUsing db uid p then
        profileNewRow now f p
      else p) }
  else
    .error "new row violates row-level security policy for table profiles"

/-- The stored state after an attempted statement: the new state on
success, the unchanged original on error. -/
def afterAttempt (db : DB) : Except String DB → DB
  | .ok d => d
  | .error _ => db

/-- Stored state after `runProfilesUpdate`. -/
def runProfilesUpdateState (now : Nat) (db : DB) (uid : Nat) (targetId : Nat)
    (f : Profile → Profile) : DB :=
  afterAttempt db (runProfilesUpdate now db uid targetId f)

/-- A freshly provisioned identity in `auth.users`:
id, email, and the `raw_user_meta_data` keys the trigger reads. -/
structure AuthUser where
  id : Nat
  email : String
  meta_full_name : Option String
  meta_role : Option String
deriving DecidableEq, Repr

/-- Trigger function `handle_new_user` (SECURITY DEFINER, fired AFTER
INSERT ON auth.users): inserts into `profiles` the values
`(NEW.id, NEW.email, COALESCE(meta full_name, User),
COALESCE(meta role, user))`; `is_active`, `created_at`, `updated_at`
take their column defaults.  Being SECURITY DEFINER it is not subject
to the "Admins can insert profiles" RLS policy; only the table
constraints (role CHECK, primary key) can make it fail. -/
def handle_new_user (now : Nat) (db : DB) (u : AuthUser) : Except String DB :=
  let p : Profile :=
    { id := u.id
      email := u.email
      full_name := u.meta_full_name.getD "User"
      role := u.meta_role.getD "user"
      is_active := true
      avatar_url := none
      created_at := now
      updated_at := now }
  if !validRole p.role then
    .error "new row violates check constraint profiles_role_check"
  else if db.profiles.any (fun q => q.id == u.id) then
    .error "duplicate key value violates unique constraint profiles_pkey"
  else
    .ok { db with profiles := db.profiles ++ [p] }

/-- USING clauses of UPDATE policies on `activity_logs`: the migration
declares none, so with RLS enabled the list is empty and every row is
invisible to UPDATE. -/
def activityLogsUpdatePolicyUsing : List (DB → Nat → ActivityLog → Bool) := []

/-- USING clauses of DELETE policies on `activity_logs`: none declared. -/
def activityLogsDeletePolicyUsing : List (DB → Nat → ActivityLog → Bool) := []

/-- `DELETE FROM activity_logs WHERE cond` as caller `uid`: only rows
passing some DELETE policy USING clause are deleted. -/
def runActivityLogsDelete (db : DB) (uid : Nat) (cond : ActivityLog → Bool) : DB :=
  { db with activity_logs := db.activity_logs.filter (fun r =>
      !(cond r && activityLogsDeletePolicyUsing.any (fun pol => pol db uid r))) }

/-- `UPDATE activity_logs SET ... WHERE cond` as caller `uid`: only rows
passing some UPDATE policy USING clause are rewritten. -/
def runActivityLogsUpdate (db : DB) (uid : Nat) (cond : ActivityLog → Bool)
    (f : ActivityLog → ActivityLog) : DB :=
  { db with activity_logs := db.activity_logs.map (fun r =>
      if cond r && activityLogsUpdatePolicyUsing.any (fun pol => pol db uid r) then
        f r
      else r) }

/-- WITH CHECK of policy "Authenticated users can insert logs":
`user_id = auth.uid()` (false when `user_id` is NULL). -/
def activityLogsInsertCheck (uid : Nat) (r : ActivityLog) : Bool :=
  r.user_id == some uid

/-- `INSERT INTO activity_logs ...` as caller `uid`. -/
def runActivityLogsInsert (db : DB) (uid : Nat) (r : ActivityLog) :
    Except String DB :=
  if activityLogsInsertCheck uid r then
    .ok { db with activity_logs := db.activity_logs ++ [r] }
  else
    .error "new row violates row-level security policy for table activity_logs"

/-- WITH CHECK of policy "Admins can insert user menu assignments". -/
def userMenusInsertCheck (db : DB) (uid : Nat) : Bool :=
  isActiveAdmin db.profiles uid

/-- USING of policy "Admins can delete user menu assignments". -/
def userMenusDeleteUsing (db : DB) (uid : Nat) : Bool :=
  isActiveAdmin db.profiles uid

/-- `INSERT INTO user_menus ...` of a single row as caller `uid`:
RLS WITH CHECK, then the `user_menus_pkey` primary key on `id`, then
the `UNIQUE(user_id, menu_id)` constraint. -/
def runUserMenusInsert (db : DB) (uid : Nat) (g : UserMenu) :
    Except String DB :=
  if !userMenusInsertCheck db uid then
    .error "new row violates row-level security policy for table user_menus"
  else if db.user_menus.any (fun h => h.id == g.id) then
    .error "duplicate key value violates unique constraint user_menus_pkey"
  else if db.user_menus.any (fun h =>
      h.user_id == g.user_id && h.menu_id == g.menu_id) then
    .error "duplicate key value violates unique constraint user_menus_user_id_menu_id_key"
  else
    .ok { db with user_menus := db.user_menus ++ [g] }

/-- `DELETE FROM user_menus WHERE cond` as caller `uid` (deletes
nothing, without error, when the caller passes no USING clause). -/
def runUserMenusDelete (db : DB) (uid : Nat) (cond : UserMenu → Bool) : DB :=
  { db with user_menus := db.user_menus.filter (fun g =>
      !(cond g && userMenusDeleteUsing db uid)) }

/-- A new row `g` clashes with the rows `gs` already in `user_menus`
when it repeats an `id` (primary key) or a `(user_id, menu_id)` pair. -/
def userMenuClash (gs : List UserMenu) (g : UserMenu) : Bool :=
  gs.any (fun h =>
    h.id == g.id || (h.user_id == g.user_id && h.menu_id == g.menu_id))

/-- All rows of a bulk insert satisfy the `user_menus` uniqueness
constraints, each row checked against the table plus the rows
inserted before it. -/
def bulkRowsOk : List UserMenu → List UserMenu → Bool
  | _, [] => true
  | gs, g :: rest => !userMenuClash gs g && bulkRowsOk (gs ++ [g]) rest

/-- Bulk `INSERT INTO user_menus ...` as caller `uid`: a single
statement, atomic — any constraint or policy violation inserts
nothing. -/
def runUserMenusInsertMany (db : DB) (uid : Nat) (rows : List UserMenu) :
    Except String DB :=
  if !userMenusInsertCheck db uid then
    .error "new row violates row-level security policy for table user_menus"
  else if bulkRowsOk db.user_menus rows then
    .ok { db with user_menus := db.user_menus ++ rows }
  else
    .error "duplicate key value violates unique constraint on user_menus"

/-- USING of policy "Admins can delete menus". -/
def menusDeleteUsing (db : DB) (uid : Nat) : Bool :=
  isActiveAdmin db.profiles uid

/-- `DELETE FROM menus WHERE cond` as caller `uid`: rows passing the
USING clause are deleted, and the `user_menus.menu_id ... ON DELETE
CASCADE` referential action removes the grants that referenced a
deleted menu.  Cascaded deletes are internal and bypass RLS. -/
def runMenusDelete (db : DB) (uid : Nat) (cond : MenuEntry → Bool) : DB :=
  let deleted := db.menus.filter (fun m => cond m && menusDeleteUsing db uid)
  { db with
    menus := db.menus.filter (fun m => !(cond m && menusDeleteUsing db uid))
    user_menus := db.user_menus.filter (fun g =>
      !(deleted.any (fun m => m.id == g.menu_id))) }

/-- Deleting identity `uid` from `auth.users` (performed outside RLS,
e.g. by the auth service): `menus.created_by REFERENCES auth.users(id)`
and `user_menus.granted_by REFERENCES auth.users(id)` carry no
ON DELETE action (NO ACTION), so the delete aborts if `uid` created
any menu, or if a `user_menus` row still referencing `uid` through
`granted_by` survives the statement — rows removed by the
`user_id` CASCADE in the same statement do not count, as NO ACTION is
checked at end of statement.  Otherwise `profiles.id` and
`user_menus.user_id` cascade and `activity_logs.user_id` is set to
NULL. -/
def deleteAuthUser (db : DB) (uid : Nat) : Except String DB :=
  if db.menus.any (fun m => m.created_by == some uid) then
    .error "update or delete on table users violates foreign key constraint menus_created_by_fkey"
  else if db.user_menus.any (fun g =>
      g.granted_by == some uid && !(g.user_id == uid)) then
    .error "update or delete on table users violates foreign key constraint user_menus_granted_by_fkey"
  else
    .ok { db with
      profiles := db.profiles.filter (fun p => !(p.id == uid))
      user_menus := db.user_menus.filter (fun g => !(g.user_id == uid))
      activity_logs := db.activity_logs.map (fun r =>
        if r.user_id == some uid then { r with user_id := none } else r) }

/-- One desired grant row built by `handleSave` of
`MenuAccessModal.tsx`: `user_id: userId, menu_id: menu.id,
granted_by: user?.id`; `id` and `granted_at` take column defaults,
modelled as a supplied fresh id and the current instant. -/
def mkGrantRow (now : Nat) (uid mid : Nat) (p : Nat × Nat) : UserMenu :=
  { id := p.2, user_id := p.1, menu_id := mid
    granted_by := some uid, granted_at := now }

/-- `handleSave` of `MenuAccessModal.tsx`: first
`delete().eq(menu_id, menu.id)`, then — only when the desired user set
is non-empty — one bulk insert of the desired rows.  Two separate
statements with no transaction: the pair returned is (state after the
delete step, outcome of the whole flow). -/
def handleSave (now : Nat) (db : DB) (uid : Nat) (mid : Nat)
    (userIds : List Nat) (freshIds : List Nat) : DB × Except String DB :=
  let db1 := runUserMenusDelete db uid (fun g => g.menu_id == mid)
  if userIds.isEmpty then
    (db1, .ok db1)
  else
    (db1, runUserMenusInsertMany db1 uid
      ((userIds.zip freshIds).map (mkGrantRow now uid mid)))

/-! Concrete fixtures used by witnesses and counterexamples. -/

/-- An active admin profile. -/
def adminProfile : Profile := ⟨0, "admin@example.com", "Admin", "admin", true, none, 0, 0⟩

/-- An active non-admin profile. -/
def bobProfile : Profile := ⟨1, "bob@example.com", "Bob", "user", true, none, 0, 0⟩

/-- An active menu. -/
def reportsMenu : MenuEntry := ⟨7, "Reports", none, "Layout", "/reports", 5, true, some 0, 0, 0⟩

/-- An inactive menu. -/
def archivedMenu : MenuEntry := ⟨8, "Archive", none, "Layout", "/archive", 1, false, some 0, 0, 0⟩

/-- Bob may see the Reports menu. -/
def bobReportsGrant : UserMenu := ⟨21, 1, 7, some 0, 0⟩

/-- Bob holds a grant on the inactive Archive menu. -/
def bobArchiveGrant : UserMenu := ⟨22, 1, 8, some 0, 0⟩

/-- A sample database: one admin, one user, two menus, two grants. -/
def sampleDB : DB :=
  ⟨[adminProfile, bobProfile], [reportsMenu, archivedMenu],
   [bobReportsGrant, bobArchiveGrant], []⟩

/-- A sample audit row attributed to Bob. -/
def sampleLog : ActivityLog := ⟨41, some 1, "login", "user", none, none, none, 0⟩

/-! Helper lemmas. -/

/-- On a table whose ids are pairwise distinct (the primary key
invariant), `find?` by id returns the member row with that id. -/
theorem find_profile_by_id (u : Nat) (l : List Profile)
    (hpk : (l.map Profile.id).Nodup) (p : Profile) (hp : p ∈ l)
    (hid : p.id = u) :
    l.find? (fun q => q.id == u) = some p := by
  induction l with
  | nil => cases hp
  | cons a t ih =>
    rw [List.map_cons, List.nodup_cons] at hpk
    rcases List.mem_cons.mp hp with rfl | hmem
    · rw [List.find?_cons]
      have : (p.id == u) = true := by simp [hid]
      simp [this]
    · have hane : (a.id == u) = false := by
        refine beq_eq_false_iff_ne.mpr ?_
        intro h
        exact hpk.1 (h ▸ hid ▸ List.mem_map_of_mem Profile.id hmem)
      rw [List.find?_cons, hane]
      exact ih hpk.2 hmem

/-! Theorems for the claims. -/

/-- Claim C1: for every non-admin caller, a SELECT over `menus`
returns exactly the rows that are active and granted to the caller in
`user_menus` — no row outside that set, none inside it omitted. -/
theorem nonadmin_menu_listing_exact (db : DB) (uid : Nat)
    (hAdmin : isActiveAdmin db.profiles uid = false) :
    selectMenus db uid = db.menus.filter (fun m =>
      m.is_active &&
        db.user_menus.any (fun g => g.user_id == uid && g.menu_id == m.id)) := by
  unfold selectMenus
  refine List.filter_congr ?_
  intro m _
  simp [menuSelectPolicy, hAdmin]

/-- Witness for C1: Bob (non-admin) lists menus over the sample
database and sees exactly the active granted menu. -/
theorem nonadmin_menu_listing_exact_witness :
    isActiveAdmin sampleDB.profiles 1 = false ∧
    selectMenus sampleDB 1 = sampleDB.menus.filter (fun m =>
      m.is_active &&
        sampleDB.user_menus.any (fun g => g.user_id == 1 && g.menu_id == m.id)) ∧
    selectMenus sampleDB 1 = [reportsMenu] :=
  ⟨by decide, nonadmin_menu_listing_exact sampleDB 1 (by decide), by decide⟩

/-- Claim C10: the `update_updated_at_column` trigger stores the
current time in `updated_at` on every `profiles` or `menus` update,
superseding any caller-supplied value, and applying the trigger logic
twice yields the same row as applying it once. -/
theorem updated_at_trigger_overwrites_idempotent (now : Nat)
    (p : Profile) (m : MenuEntry) :
    (update_updated_at_column now p).updated_at = now ∧
    (update_updated_at_column_menu now m).updated_at = now ∧
    update_updated_at_column now (update_updated_at_column now p) =
      update_updated_at_column now p ∧
    update_updated_at_column_menu now (update_updated_at_column_menu now m) =
      update_updated_at_column_menu now m :=
  ⟨rfl, rfl, rfl, rfl⟩

/-- Claim C4: `activity_logs` rows are write-once with
self-attribution: an INSERT succeeds exactly when the row's `user_id`
is the caller's own id, and — the table having no UPDATE or DELETE
policy — every UPDATE or DELETE statement leaves the table
unchanged. -/
theorem activity_logs_write_once_self_attributed (db : DB) (uid : Nat)
    (cond : ActivityLog → Bool) (f : ActivityLog → ActivityLog)
    (r : ActivityLog) :
    runActivityLogsDelete db uid cond = db ∧
    runActivityLogsUpdate db uid cond f = db ∧
    (r.user_id = some uid →
      runActivityLogsInsert db uid r =
        .ok { db with activity_logs := db.activity_logs ++ [r] }) ∧
    (r.user_id ≠ some uid →
      runActivityLogsInsert db uid r =
        .error "new row violates row-level security policy for table activity_logs") := by
  refine ⟨?_, ?_, ?_, ?_⟩
  · simp [runActivityLogsDelete, activityLogsDeletePolicyUsing]
  · simp [runActivityLogsUpdate, activityLogsUpdatePolicyUsing]
  · intro h
    simp [runActivityLogsInsert, activityLogsInsertCheck, h]
  · intro h
    simp [runActivityLogsInsert, activityLogsInsertCheck, h]

/-- Witness for C4: over the sample database, Bob's own log row
inserts, a foreign-attributed row is rejected, and update/delete
leave the table unchanged. -/
theorem activity_logs_write_once_self_attributed_witness :
    runActivityLogsDelete sampleDB 1 (fun _ => true) = sampleDB ∧
    runActivityLogsUpdate sampleDB 1 (fun _ => true) id = sampleDB ∧
    runActivityLogsInsert sampleDB 1 sampleLog =
      .ok { sampleDB with activity_logs := sampleDB.activity_logs ++ [sampleLog] } ∧
    runActivityLogsInsert sampleDB 0 sampleLog =
      .error "new row violates row-level security policy for table activity_logs" := by
  have h1 := activity_logs_write_once_self_attributed sampleDB 1
    (fun _ => true) id sampleLog
  have h0 := activity_logs_write_once_self_attributed sampleDB 0
    (fun _ => true) id sampleLog
  exact ⟨h1.1, h1.2.1, h1.2.2.1 (by decide), h0.2.2.2 (by decide)⟩

/-- Claim C8: for a caller who is not an active admin, a SELECT on
`profiles` filtered to another identity's id returns zero rows,
whether or not such a row exists — a denied read is observably the
same as reading an absent row, with no distinguishable error. -/
theorem denial_indistinguishable_from_absence (db : DB) (uid pid : Nat)
    (hAdmin : isActiveAdmin db.profiles uid = false) (hne : pid ≠ uid) :
    selectProfilesById db uid pid = [] ∧
    selectProfilesById
      { db with profiles := db.profiles.filter (fun p => !(p.id == pid)) }
      uid pid = [] ∧
    selectProfilesById db uid pid =
      selectProfilesById
        { db with profiles := db.profiles.filter (fun p => !(p.id == pid)) }
        uid pid := by
  have h1 : selectProfilesById db uid pid = [] := by
    refine List.filter_eq_nil_iff.mpr ?_
    intro p _
    simp only [Bool.and_eq_true, beq_iff_eq, profileSelectPolicy,
      Bool.or_eq_true, not_and]
    rintro rfl
    rw [hAdmin]
    simp
    exact fun h => hne h.symm
  have h2 : selectProfilesById
      { db with profiles := db.profiles.filter (fun p => !(p.id == pid)) }
      uid pid = [] := by
    refine List.filter_eq_nil_iff.mpr ?_
    intro p hp
    have := (List.mem_filter.mp hp).2
    simp only [Bool.not_eq_eq_eq_not, Bool.not_true, beq_eq_false_iff_ne] at this
    simp [this]
  exact ⟨h1, h2, h1.trans h2.symm⟩

/-- Witness for C8: non-admin Bob querying the admin's profile row
gets zero rows, identical to querying after that row is erased. -/
theorem denial_indistinguishable_from_absence_witness :
    isActiveAdmin sampleDB.profiles 1 = false ∧
    selectProfilesById sampleDB 1 0 = [] ∧
    selectProfilesById
      { sampleDB with
        profiles := sampleDB.profiles.filter (fun p => !(p.id == 0)) } 1 0 = [] := by
  have h := denial_indistinguishable_from_absence sampleDB 1 0 (by decide)
    (by decide)
  exact ⟨by decide, h.1, h.2.1⟩

/-- Claim C3: the SECURITY DEFINER signup trigger copies the metadata
role into the new profile with no check that any admin authorized it:
whatever the database state — in particular with no active admin
anywhere — an identity whose metadata says role admin gets a profile
with role admin and `is_active = true`. -/
theorem signup_metadata_role_admin_unchecked (now : Nat) (db : DB)
    (u : AuthUser) (hmeta : u.meta_role = some "admin")
    (hfresh : db.profiles.any (fun q => q.id == u.id) = false) :
    handle_new_user now db u =
      .ok { db with profiles := db.profiles ++
        [{ id := u.id, email := u.email,
           full_name := u.meta_full_name.getD "User",
           role := "admin", is_active := true, avatar_url := none,
           created_at := now, updated_at := now }] } := by
  simp [handle_new_user, hmeta, hfresh, validRole]

/-- Witness for C3: over an empty database — no admin exists at all —
a signup carrying role admin in its metadata creates an active admin
profile. -/
theorem signup_metadata_role_admin_unchecked_witness :
    handle_new_user 3 ⟨[], [], [], []⟩ ⟨5, "eve@example.com", none, some "admin"⟩ =
      .ok ⟨[⟨5, "eve@example.com", "User", "admin", true, none, 3, 3⟩], [], [], []⟩ := by
  have h := signup_metadata_role_admin_unchecked 3 ⟨[], [], [], []⟩
    ⟨5, "eve@example.com", none, some "admin"⟩ rfl (by decide)
  exact h

/-- Claim C5: a signup with no metadata inserts exactly one profile
row carrying the identity's id and email, full name "User", role
"user", and `is_active = true`. -/
theorem signup_no_metadata_defaults (now : Nat) (db : DB) (u : AuthUser)
    (hname : u.meta_full_name = none) (hrole : u.meta_role = none)
    (hfresh : db.profiles.any (fun q => q.id == u.id) = false) :
    handle_new_user now db u =
      .ok { db with profiles := db.profiles ++
        [{ id := u.id, email := u.email, full_name := "User",
           role := "user", is_active := true, avatar_url := none,
           created_at := now, updated_at := now }] } := by
  simp [handle_new_user, hname, hrole, hfresh, validRole]

/-- Witness for C5: alice\@example.com signs up with no metadata over
the sample database. -/
theorem signup_no_metadata_defaults_witness :
    handle_new_user 3 sampleDB ⟨6, "alice@example.com", none, none⟩ =
      .ok { sampleDB with profiles := sampleDB.profiles ++
        [⟨6, "alice@example.com", "User", "user", true, none, 3, 3⟩] } := by
  exact signup_no_metadata_defaults 3 sampleDB
    ⟨6, "alice@example.com", none, none⟩ rfl rfl (by decide)

/-- Claim C2 counterexample: the claim fails for an active admin
caller.  Caller 0 is an active admin of the sample database; its
self-update (target row = own row) changing role from admin to user
passes the "Admins can update any profile" WITH CHECK and is
committed: the stored role list changes from [admin, user] to
[user, user]. -/
theorem admin_self_role_update_commits :
    (runProfilesUpdateState 5 sampleDB 0 0
        (fun p => { p with role := "user" })).profiles.map Profile.role =
      ["user", "user"] ∧
    sampleDB.profiles.map Profile.role = ["admin", "user"] :=
  ⟨rfl, rfl⟩

/-- Claim C2 as amended: for every caller that is NOT an active admin,
an UPDATE of the caller's own `profiles` row is never committed with a
changed role or is_active — after the attempt every stored row keeps
its prior id, role and is_active. -/
theorem nonadmin_self_update_preserves_privilege (now : Nat) (db : DB)
    (uid : Nat) (f : Profile → Profile)
    (hAdmin : isActiveAdmin db.profiles uid = false)
    (hpk : (db.profiles.map Profile.id).Nodup) :
    (runProfilesUpdateState now db uid uid f).profiles.map
        (fun p => (p.id, p.role, p.is_active)) =
      db.profiles.map (fun p => (p.id, p.role, p.is_active)) := by
  rw [runProfilesUpdateState, runProfilesUpdate]
  by_cases hall : db.profiles.all (fun p =>
      !(p.id == uid && profileUpdateUsing db uid p) ||
        profileUpdateCheck db uid (profileNewRow now f p)) = true
  · rw [if_pos hall]
    show ((db.profiles.map _).map _) = _
    rw [List.map_map]
    refine List.map_congr_left ?_
    intro p hp
    simp only [Function.comp_apply]
    by_cases hcond : (p.id == uid && profileUpdateUsing db uid p) = true
    · rw [if_pos hcond]
      have hchk := List.all_eq_true.mp hall p hp
      rw [hcond] at hchk
      simp only [Bool.not_true, Bool.false_or] at hchk
      have hpid : p.id = uid := beq_iff_eq.mp (Bool.and_eq_true_iff.mp hcond).1
      rw [profileUpdateCheck, hAdmin, Bool.or_false] at hchk
      rw [find_profile_by_id uid db.profiles hpk p hp hpid] at hchk
      have h1 := (Bool.and_eq_true_iff.mp hchk).1
      have h2 := (Bool.and_eq_true_iff.mp hchk).2
      have hid2 : (profileNewRow now f p).id = uid :=
        (beq_iff_eq.mp h1).symm
      have hrole : (profileNewRow now f p).role = p.role :=
        beq_iff_eq.mp (Bool.and_eq_true_iff.mp h2).1
      have hact : (profileNewRow now f p).is_active = p.is_active :=
        beq_iff_eq.mp (Bool.and_eq_true_iff.mp h2).2
      rw [hid2, hrole, hact, hpid]
    · rw [if_neg hcond]
  · rw [if_neg hall]
    rfl

/-- Witness for the amended C2: non-admin Bob tries to promote himself
to admin and deactivate nothing; the stored privilege columns are
untouched. -/
theorem nonadmin_self_update_preserves_privilege_witness :
    isActiveAdmin sampleDB.profiles 1 = false ∧
    (runProfilesUpdateState 5 sampleDB 1 1
        (fun p => { p with role := "admin" })).profiles.map
        (fun p => (p.id, p.role, p.is_active)) =
      sampleDB.profiles.map (fun p => (p.id, p.role, p.is_active)) :=
  ⟨by decide,
   nonadmin_self_update_preserves_privilege 5 sampleDB 1
     (fun p => { p with role := "admin" }) (by decide) (by decide)⟩

/-- Claim C6: a policy-permitted insert into `user_menus` leaves
exactly one row with the inserted (user_id, menu_id) pair, and a
second insert of the same pair — under the same caller and a fresh
primary key — fails with the pair-uniqueness violation, the stored
table unchanged. -/
theorem grant_pair_unique_second_insert_fails (db db' : DB) (uid : Nat)
    (g g2 : UserMenu)
    (h : runUserMenusInsert db uid g = .ok db')
    (hu : g2.user_id = g.user_id) (hm : g2.menu_id = g.menu_id)
    (hid : db'.user_menus.any (fun h2 => h2.id == g2.id) = false) :
    (db'.user_menus.filter (fun h2 =>
        h2.user_id == g.user_id && h2.menu_id == g.menu_id)).length = 1 ∧
    runUserMenusInsert db' uid g2 =
      .error "duplicate key value violates unique constraint user_menus_user_id_menu_id_key" ∧
    afterAttempt db' (runUserMenusInsert db' uid g2) = db' := by
  rw [runUserMenusInsert] at h
  split_ifs at h with hc1 hc2 hc3
  · have hdb' : db' = { db with user_menus := db.user_menus ++ [g] } :=
      (Except.ok.inj h).symm
    subst hdb'
    have hcheck : userMenusInsertCheck db uid = true := by
      revert hc1
      cases userMenusInsertCheck db uid <;> simp
    have hpairfree : db.user_menus.any (fun h2 =>
        h2.user_id == g.user_id && h2.menu_id == g.menu_id) = false := by
      revert hc3
      cases db.user_menus.any (fun h2 =>
        h2.user_id == g.user_id && h2.menu_id == g.menu_id) <;> simp
    refine ⟨?_, ?_, ?_⟩
    · show ((db.user_menus ++ [g]).filter _).length = 1
      rw [List.filter_append]
      have hnil : db.user_menus.filter (fun h2 =>
          h2.user_id == g.user_id && h2.menu_id == g.menu_id) = [] :=
        List.filter_eq_nil_iff.mpr (fun h2 hh2 hph2 =>
          (List.any_eq_false.mp hpairfree h2 hh2) hph2)
      rw [hnil]
      simp
    · rw [runUserMenusInsert]
      have hcheck' : userMenusInsertCheck
          { db with user_menus := db.user_menus ++ [g] } uid = true := hcheck
      rw [if_neg (by rw [hcheck']; simp), if_neg (by rw [hid]; simp),
        if_pos ?_]
      refine List.any_eq_true.mpr ⟨g, List.mem_append_right _ (by simp), ?_⟩
      simp [hu, hm]
    · rw [runUserMenusInsert]
      have hcheck' : userMenusInsertCheck
          { db with user_menus := db.user_menus ++ [g] } uid = true := hcheck
      rw [if_neg (by rw [hcheck']; simp), if_neg (by rw [hid]; simp),
        if_pos ?_]
      · rfl
      · refine List.any_eq_true.mpr ⟨g, List.mem_append_right _ (by simp), ?_⟩
        simp [hu, hm]

/-- Witness for C6: the admin grants Bob menu 9; a second grant of the
same (user, menu) pair under a fresh id fails with the pair-unique
violation and changes nothing. -/
theorem grant_pair_unique_second_insert_fails_witness :
    (({ sampleDB with
          user_menus := sampleDB.user_menus ++ [⟨23, 1, 9, some 0, 0⟩] } :
        DB).user_menus.filter (fun h2 =>
        h2.user_id == 1 && h2.menu_id == 9)).length = 1 ∧
    runUserMenusInsert
      { sampleDB with
        user_menus := sampleDB.user_menus ++ [⟨23, 1, 9, some 0, 0⟩] } 0
      ⟨24, 1, 9, some 0, 0⟩ =
      .error "duplicate key value violates unique constraint user_menus_user_id_menu_id_key" ∧
    afterAttempt
      { sampleDB with
        user_menus := sampleDB.user_menus ++ [⟨23, 1, 9, some 0, 0⟩] }
      (runUserMenusInsert
        { sampleDB with
          user_menus := sampleDB.user_menus ++ [⟨23, 1, 9, some 0, 0⟩] } 0
        ⟨24, 1, 9, some 0, 0⟩) =
      { sampleDB with
        user_menus := sampleDB.user_menus ++ [⟨23, 1, 9, some 0, 0⟩] } :=
  grant_pair_unique_second_insert_fails sampleDB
    { sampleDB with
      user_menus := sampleDB.user_menus ++ [⟨23, 1, 9, some 0, 0⟩] } 0
    ⟨23, 1, 9, some 0, 0⟩ ⟨24, 1, 9, some 0, 0⟩ rfl rfl rfl (by decide)

/-- Claim C7: an admin's DELETE of a menu removes, besides the menu
row itself, exactly the `user_menus` rows whose menu_id references it
— `profiles` and `activity_logs` rows untouched; and deleting an
identity removes exactly the `user_menus` rows for that user id among
grants, with `menus` untouched and no `activity_logs` row deleted
(their `user_id` is set to NULL per the schema). -/
theorem cascade_delete_exact (db : DB) (uid mid uid2 : Nat) (db2 : DB)
    (hAdmin : isActiveAdmin db.profiles uid = true)
    (hmem : db.menus.any (fun m => m.id == mid) = true)
    (hdel : deleteAuthUser db uid2 = .ok db2) :
    (runMenusDelete db uid (fun m => m.id == mid)).menus =
      db.menus.filter (fun m => !(m.id == mid)) ∧
    (runMenusDelete db uid (fun m => m.id == mid)).user_menus =
      db.user_menus.filter (fun g => !(g.menu_id == mid)) ∧
    (runMenusDelete db uid (fun m => m.id == mid)).profiles = db.profiles ∧
    (runMenusDelete db uid (fun m => m.id == mid)).activity_logs =
      db.activity_logs ∧
    db2.user_menus = db.user_menus.filter (fun g => !(g.user_id == uid2)) ∧
    db2.menus = db.menus ∧
    db2.activity_logs.length = db.activity_logs.length := by
  have hmenus : (runMenusDelete db uid (fun m => m.id == mid)).menus =
      db.menus.filter (fun m => !(m.id == mid)) := by
    show db.menus.filter _ = _
    refine List.filter_congr ?_
    intro m _
    rw [menusDeleteUsing, hAdmin]
    simp
  have hgrants : (runMenusDelete db uid (fun m => m.id == mid)).user_menus =
      db.user_menus.filter (fun g => !(g.menu_id == mid)) := by
    show db.user_menus.filter _ = _
    refine List.filter_congr ?_
    intro g _
    have hdeleted : (db.menus.filter (fun m =>
        m.id == mid && menusDeleteUsing db uid)).any
          (fun m => m.id == g.menu_id) = (g.menu_id == mid) := by
      by_cases hg : g.menu_id = mid
      · obtain ⟨m0, hm0, hm0id⟩ := List.any_eq_true.mp hmem
        refine Eq.trans (List.any_eq_true.mpr ⟨m0, ?_, ?_⟩) (by simp [hg])
        · exact List.mem_filter.mpr ⟨hm0, by
            rw [menusDeleteUsing, hAdmin, hm0id]; rfl⟩
        · rw [hg]
          exact hm0id
      · refine Eq.trans (List.any_eq_false.mpr ?_)
          (by simp [beq_eq_false_iff_ne.mpr hg])
        intro m hmf
        have := (List.mem_filter.mp hmf).2
        have hmid : m.id = mid := by
          have := (Bool.and_eq_true_iff.mp this).1
          exact beq_iff_eq.mp this
        simp [hmid]
        exact fun hc => hg hc.symm
    rw [hdeleted]
  have hdel2 := hdel
  rw [deleteAuthUser] at hdel2
  split_ifs at hdel2 with hfk hfk2
  · have hdb2 : db2 = { db with
        profiles := db.profiles.filter (fun p => !(p.id == uid2))
        user_menus := db.user_menus.filter (fun g => !(g.user_id == uid2))
        activity_logs := db.activity_logs.map (fun r =>
          if r.user_id == some uid2 then { r with user_id := none } else r) } :=
      (Except.ok.inj hdel2).symm
    subst hdb2
    exact ⟨hmenus, hgrants, rfl, rfl, rfl, rfl, by simp⟩

/-- Witness for C7: the admin deletes menu 7 of the sample database;
exactly Bob's grant on menu 7 disappears; the identity 1 (Bob, who
created no menu) is deleted and exactly his grants disappear. -/
theorem cascade_delete_exact_witness :
    (runMenusDelete sampleDB 0 (fun m => m.id == 7)).menus =
      sampleDB.menus.filter (fun m => !(m.id == 7)) ∧
    (runMenusDelete sampleDB 0 (fun m => m.id == 7)).user_menus =
      sampleDB.user_menus.filter (fun g => !(g.menu_id == 7)) ∧
    (runMenusDelete sampleDB 0 (fun m => m.id == 7)).profiles =
      sampleDB.profiles ∧
    (runMenusDelete sampleDB 0 (fun m => m.id == 7)).activity_logs =
      sampleDB.activity_logs ∧
    ({ sampleDB with profiles := [adminProfile], user_menus := [] } :
        DB).user_menus =
      sampleDB.user_menus.filter (fun g => !(g.user_id == 1)) ∧
    ({ sampleDB with profiles := [adminProfile], user_menus := [] } :
        DB).menus = sampleDB.menus ∧
    ({ sampleDB with profiles := [adminProfile], user_menus := [] } :
        DB).activity_logs.length = sampleDB.activity_logs.length :=
  cascade_delete_exact sampleDB 0 7 1
    { sampleDB with profiles := [adminProfile], user_menus := [] }
    (by decide) (by decide) rfl

/-- Mapping a function of the first component over a zip against an
equal-or-longer list is mapping over the first list. -/
theorem zip_map_fst_fun {α β γ : Type} (F : α → γ) (as : List α)
    (bs : List β) (h : as.length ≤ bs.length) :
    (as.zip bs).map (fun p => F p.1) = as.map F := by
  have h1 : (fun (p : α × β) => F p.1) = F ∘ Prod.fst := rfl
  rw [h1, ← List.map_map, List.map_fst_zip as bs h]

/-- A bulk insert passes the `user_menus` uniqueness checks when no
new row clashes with the table and the new rows repeat no id and no
(user_id, menu_id) pair among themselves. -/
theorem bulkRowsOk_of_no_clash (rows : List UserMenu) :
    ∀ gs : List UserMenu,
    (∀ g ∈ rows, ∀ h2 ∈ gs,
      h2.id ≠ g.id ∧ ¬(h2.user_id = g.user_id ∧ h2.menu_id = g.menu_id)) →
    (rows.map UserMenu.id).Nodup →
    (rows.map (fun g => (g.user_id, g.menu_id))).Nodup →
    bulkRowsOk gs rows = true := by
  induction rows with
  | nil => intro gs _ _ _; rfl
  | cons g rest ih =>
    intro gs hclash hids hpairs
    rw [bulkRowsOk]
    have h1 : userMenuClash gs g = false := by
      rw [userMenuClash]
      refine List.any_eq_false.mpr ?_
      intro h2 hh2
      obtain ⟨ha, hb⟩ := hclash g (List.mem_cons_self g rest) h2 hh2
      simp only [Bool.or_eq_true, beq_iff_eq, Bool.and_eq_true, not_or]
      exact ⟨ha, fun hc => hb hc⟩
    rw [h1]
    simp only [Bool.not_false, Bool.true_and]
    rw [List.map_cons, List.nodup_cons] at hids hpairs
    refine ih (gs ++ [g]) ?_ hids.2 hpairs.2
    intro g' hg' h0 hh0
    rcases List.mem_append.mp hh0 with hmem | hmem
    · exact hclash g' (List.mem_cons_of_mem g hg') h0 hmem
    · rw [List.mem_singleton] at hmem
      refine ⟨?_, ?_⟩
      · intro hceq
        rw [hmem] at hceq
        exact hids.1 (hceq ▸ List.mem_map_of_mem UserMenu.id hg')
      · rintro ⟨hcu, hcm⟩
        rw [hmem] at hcu hcm
        apply hpairs.1
        have hpe : (g.user_id, g.menu_id) = (g'.user_id, g'.menu_id) := by
          rw [hcu, hcm]
        rw [hpe]
        exact List.mem_map_of_mem _ hg'

/-- Claim C9: `handleSave` for menu `mid` performs the delete
statement first — the state between the two statements holds zero
grants for the menu, exactly the non-`mid` grants surviving — then,
only when the desired user set is non-empty, bulk-inserts one grant
per desired user with `granted_by` the acting caller; on full success
the menu's grant rows are exactly the desired set. -/
theorem replace_all_grants_two_step (now : Nat) (db : DB) (uid mid : Nat)
    (userIds freshIds : List Nat)
    (hAdmin : isActiveAdmin db.profiles uid = true)
    (hU : userIds.Nodup) (hF : freshIds.Nodup)
    (hLen : freshIds.length = userIds.length)
    (hFresh : ∀ i ∈ freshIds, ∀ h2 ∈ db.user_menus, h2.id ≠ i) :
    (handleSave now db uid mid userIds freshIds).1.user_menus =
      db.user_menus.filter (fun g => !(g.menu_id == mid)) ∧
    (handleSave now db uid mid userIds freshIds).1.user_menus.filter
      (fun g => g.menu_id == mid) = [] ∧
    (userIds = [] →
      (handleSave now db uid mid userIds freshIds).2 =
        .ok (handleSave now db uid mid userIds freshIds).1) ∧
    ∃ dbf, (handleSave now db uid mid userIds freshIds).2 = .ok dbf ∧
      (dbf.user_menus.filter (fun g => g.menu_id == mid)).map
          (fun g => (g.user_id, g.granted_by)) =
        userIds.map (fun u => (u, some uid)) := by
  have hdel : (runUserMenusDelete db uid
      (fun g => g.menu_id == mid)).user_menus =
      db.user_menus.filter (fun g => !(g.menu_id == mid)) := by
    show db.user_menus.filter _ = _
    refine List.filter_congr ?_
    intro g _
    rw [userMenusDeleteUsing, hAdmin]
    simp
  have hzero : (db.user_menus.filter
      (fun g => !(g.menu_id == mid))).filter
      (fun g => g.menu_id == mid) = [] := by
    refine List.filter_eq_nil_iff.mpr ?_
    intro g hg
    have := (List.mem_filter.mp hg).2
    simp only [Bool.not_eq_eq_eq_not, Bool.not_true] at this
    simp [this]
  rcases userIds with _ | ⟨u, us⟩
  · refine ⟨hdel, ?_, fun _ => rfl, ?_⟩
    · show ((runUserMenusDelete db uid
          (fun g => g.menu_id == mid)).user_menus).filter
          (fun g => g.menu_id == mid) = []
      rw [hdel]
      exact hzero
    · refine ⟨runUserMenusDelete db uid (fun g => g.menu_id == mid),
        rfl, ?_⟩
      rw [hdel, hzero]
      rfl
  · -- non-empty desired set: the bulk insert step runs and succeeds
    have hLen' : freshIds.length = (u :: us).length := hLen
    have hrowids : (((u :: us).zip freshIds).map
        (mkGrantRow now uid mid)).map UserMenu.id = freshIds := by
      rw [List.map_map]
      have he : ((u :: us).zip freshIds).map
          (UserMenu.id ∘ mkGrantRow now uid mid) =
          ((u :: us).zip freshIds).map Prod.snd :=
        List.map_congr_left (fun p _ => rfl)
      rw [he, List.map_snd_zip (u :: us) freshIds (le_of_eq hLen')]
    have hrowpairs : (((u :: us).zip freshIds).map
        (mkGrantRow now uid mid)).map (fun g => (g.user_id, g.menu_id)) =
        (u :: us).map (fun x => (x, mid)) := by
      rw [List.map_map]
      exact zip_map_fst_fun (fun x => (x, mid)) (u :: us) freshIds
        (le_of_eq hLen'.symm)
    have hpairsnd : ((u :: us).map (fun x => (x, mid))).Nodup := by
      refine List.Nodup.map ?_ hU
      intro a b hab
      simpa using congrArg Prod.fst hab
    have hclash : ∀ g ∈ ((u :: us).zip freshIds).map
        (mkGrantRow now uid mid),
        ∀ h2 ∈ (runUserMenusDelete db uid
          (fun g => g.menu_id == mid)).user_menus,
        h2.id ≠ g.id ∧
          ¬(h2.user_id = g.user_id ∧ h2.menu_id = g.menu_id) := by
      intro g hg h2 hh2
      rw [hdel] at hh2
      have hh2db := (List.mem_filter.mp hh2).1
      have hh2mid := (List.mem_filter.mp hh2).2
      simp only [Bool.not_eq_eq_eq_not, Bool.not_true,
        beq_eq_false_iff_ne] at hh2mid
      obtain ⟨p, hp, rfl⟩ := List.mem_map.mp hg
      obtain ⟨pu, pi⟩ := p
      have hpi : pi ∈ freshIds := (List.of_mem_zip hp).2
      refine ⟨hFresh pi hpi h2 hh2db, ?_⟩
      rintro ⟨-, hcm⟩
      exact hh2mid hcm
    have hbulk : bulkRowsOk
        (runUserMenusDelete db uid (fun g => g.menu_id == mid)).user_menus
        (((u :: us).zip freshIds).map (mkGrantRow now uid mid)) = true :=
      bulkRowsOk_of_no_clash _ _ hclash
        (by rw [hrowids]; exact hF) (by rw [hrowpairs]; exact hpairsnd)
    have hcheck : userMenusInsertCheck
        (runUserMenusDelete db uid (fun g => g.menu_id == mid)) uid =
        true := hAdmin
    have hins : runUserMenusInsertMany
        (runUserMenusDelete db uid (fun g => g.menu_id == mid)) uid
        (((u :: us).zip freshIds).map (mkGrantRow now uid mid)) =
        .ok { runUserMenusDelete db uid (fun g => g.menu_id == mid) with
          user_menus :=
            (runUserMenusDelete db uid
              (fun g => g.menu_id == mid)).user_menus ++
            ((u :: us).zip freshIds).map (mkGrantRow now uid mid) } := by
      rw [runUserMenusInsertMany, if_neg (by rw [hcheck]; simp),
        if_pos hbulk]
    refine ⟨hdel, ?_, fun hc => absurd hc (by simp), ?_⟩
    · show ((runUserMenusDelete db uid
          (fun g => g.menu_id == mid)).user_menus).filter
          (fun g => g.menu_id == mid) = []
      rw [hdel]
      exact hzero
    · refine ⟨_, hins, ?_⟩
      show (((runUserMenusDelete db uid
          (fun g => g.menu_id == mid)).user_menus ++
          ((u :: us).zip freshIds).map (mkGrantRow now uid mid)).filter
          (fun g => g.menu_id == mid)).map
          (fun g => (g.user_id, g.granted_by)) = _
      rw [List.filter_append, hdel, hzero, List.nil_append]
      have hself : (((u :: us).zip freshIds).map
          (mkGrantRow now uid mid)).filter
          (fun g => g.menu_id == mid) =
          ((u :: us).zip freshIds).map (mkGrantRow now uid mid) := by
        refine List.filter_eq_self.mpr ?_
        intro g hg
        obtain ⟨p, hp, rfl⟩ := List.mem_map.mp hg
        simp [mkGrantRow]
      rw [hself, List.map_map]
      exact zip_map_fst_fun (fun x => (x, some uid)) (u :: us) freshIds
        (le_of_eq hLen'.symm)

/-- Witness for C9: the admin replaces the grants of menu 7 of the
sample database with the user set [1, 0]; the intermediate state
holds zero grants for menu 7 and the final state exactly the desired
pairs, each granted by the admin. -/
theorem replace_all_grants_two_step_witness :
    (handleSave 9 sampleDB 0 7 [1, 0] [30, 31]).1.user_menus =
      sampleDB.user_menus.filter (fun g => !(g.menu_id == 7)) ∧
    (handleSave 9 sampleDB 0 7 [1, 0] [30, 31]).1.user_menus.filter
      (fun g => g.menu_id == 7) = [] ∧
    (([1, 0] : List Nat) = [] →
      (handleSave 9 sampleDB 0 7 [1, 0] [30, 31]).2 =
        .ok (handleSave 9 sampleDB 0 7 [1, 0] [30, 31]).1) ∧
    ∃ dbf, (handleSave 9 sampleDB 0 7 [1, 0] [30, 31]).2 = .ok dbf ∧
      (dbf.user_menus.filter (fun g => g.menu_id == 7)).map
          (fun g => (g.user_id, g.granted_by)) =
        ([1, 0] : List Nat).map (fun u => (u, some 0)) :=
  replace_all_grants_two_step 9 sampleDB 0 7 [1, 0] [30, 31]
    (by decide) (by decide) (by decide) rfl (by decide)

end Boltz
